import Mathlib

/-!
Verification of the biosolids facility-filtering pipeline
(`biosolids_duplicate_debugging/biosolids_filtering.ipynb`).

The notebook enriches a roster of NPDES-permitted facilities with SIC codes
(`sic_permit`) and a coarse verdict (`check_sewer_permits`), then applies an
ordered sequence of retention rules to produce a final `biosolids_to_remove`
set, in two configurations: the original POTW rule and a revised rule that
overrides POTW retention for facilities holding the water-supply code 4941.
A reconciliation cell compares the two runs by a five-column key.

Pandas-specific behaviour is embedded explicitly:
  * a missing (`NaN`) `Reporting Obligation(s)` entry makes `str.contains`
    return a non-boolean, so the original configuration's mask
    `~series.str.contains('POTW')` fails on any frame containing one; the
    whole filter is therefore `Option`-valued, `none` modelling the raised
    error;
  * in the revised configuration the comparison `potw_check == 1` maps the
    non-boolean entry to `False`, so the row proceeds;
  * `drop_duplicates(keep%3DFalse)` keeps exactly the rows whose key occurs
    once in the concatenated frame.
-/

/-- One entry of the `sic_permit` column: either a numeric SIC code or the
string sentinel `NO_SIC_MATCH` produced when the lookup found nothing. -/
inductive SicEntry where
  | code (n : Nat)
  | noSicMatch
deriving DecidableEq, Repr

/-- A raw facility record: the roster columns the pipeline reads.
`reportingObligations` is `none` when the `Reporting Obligation(s)` cell is
missing or malformed (pandas `NaN`). -/
structure Facility where
  npdesId : String
  facilityName : String
  city : String
  state : String
  reportingObligations : Option String
deriving DecidableEq, Repr

/-- An enriched record: the raw columns plus the attached `sic_permit`
code list and the `check_sewer_permits` verdict column. -/
structure EnrichedFacility where
  fac : Facility
  sic_permit : List SicEntry
  check_sewer_permits : String
deriving DecidableEq, Repr

/-- `matchesAt needle hay`: the needle occurs at the head of the haystack. -/
def matchesAt : List Char → List Char → Bool
  | [], _ => true
  | _ :: _, [] => false
  | c :: cs, d :: ds => c == d && matchesAt cs ds

/-- `occursIn needle hay`: the needle occurs somewhere in the haystack. -/
def occursIn : List Char → List Char → Bool
  | needle, [] => matchesAt needle []
  | needle, d :: ds => matchesAt needle (d :: ds) || occursIn needle ds

/-- Literal-substring reading of pandas `Series.str.contains` on a present
string (the patterns used by the notebook, `POTW` and NPDES identifiers,
contain no regex metacharacters). -/
def py_str_contains (hay needle : String) : Bool :=
  occursIn needle.toList hay.toList

/-- `biosolids_not_sewer['Reporting Obligation(s)'].str.contains('POTW')`
for one row: `none` models the `NaN` produced for a missing cell. -/
def potw_check (e : EnrichedFacility) : Option Bool :=
  e.fac.reportingObligations.map (fun s => py_str_contains s "POTW")

/-- Rule 1: `all_biosolids[all_biosolids['check_sewer_permits'] == 'other_system']`. -/
def filter_not_sewer (rows : List EnrichedFacility) : List EnrichedFacility :=
  rows.filter (fun e => e.check_sewer_permits == "other_system")

/-- Rule 2, original configuration:
`potw_mask = ~biosolids_not_sewer['Reporting Obligation(s)'].str.contains('POTW')`
followed by `biosolids_not_sewer[potw_mask]`. The unary `~` raises on the
non-boolean entry a missing cell produces, so the whole filter errors
(`none`) in that case; otherwise it keeps the rows whose text does not
contain `POTW`. -/
def original_potw_filter (rows : List EnrichedFacility) :
    Option (List EnrichedFacility) :=
  if rows.all (fun e => (potw_check e).isSome) then
    some (rows.filter (fun e => potw_check e == some false))
  else
    none

/-- The water-supply SIC code singled out by the revision. -/
def dw_code : Nat := 4941

/-- `biosolids_not_sewer['sic_permit'].apply(lambda x: dw_code in x)`. -/
def dw_sic_check (e : EnrichedFacility) : Bool :=
  e.sic_permit.contains (SicEntry.code dw_code)

/-- Rule 2, revised configuration, one row of
`~((potw_check == 1) & (dw_sic_check == 0))`: the pandas comparison
`NaN == 1` is `False`, so a missing text never triggers retention. -/
def potw_not_dw_mask (e : EnrichedFacility) : Bool :=
  !((potw_check e == some true) && !(dw_sic_check e))

/-- Rule 2, revised configuration: `biosolids_not_sewer[potw_not_dw_mask]`. -/
def revised_potw_filter (rows : List EnrichedFacility) : List EnrichedFacility :=
  rows.filter potw_not_dw_mask

/-- `lambda x: 'NO_SIC_MATCH' not in x` applied to `sic_permit`. -/
def has_sic_match (e : EnrichedFacility) : Bool :=
  !(e.sic_permit.contains SicEntry.noSicMatch)

/-- Rule 3: keep only the rows whose `sic_permit` has no `NO_SIC_MATCH`. -/
def filter_has_match (rows : List EnrichedFacility) : List EnrichedFacility :=
  rows.filter has_sic_match

/-- The `sic_remove` taxonomy list of the notebook, order and the repeated
7999 entry preserved. -/
def sic_remove : List Nat :=
  [6515, 4941, 8211, 8221, 7033, 7032, 9223, 1389, 3533, 8361, 8661, 7997,
   7999, 8051, 3498, 7011, 3171, 2491, 2493, 9711, 3743, 5541, 4911, 5075,
   7041, 2011, 8063, 5812, 7999, 2899, 3331, 6531, 4011, 6514, 2621, 4581,
   1522]

/-- The `sic_check` review taxonomy list of the notebook. -/
def sic_check : List Nat := [1629, 9511, 9199, 7299, 2819]

/-- `lambda x: any(item in sic_remove for item in x)`: the string sentinel,
when present, is never a member of the integer list `sic_remove`. -/
def intersects_sic_remove (e : EnrichedFacility) : Bool :=
  e.sic_permit.any (fun x =>
    match x with
    | SicEntry.code n => sic_remove.contains n
    | SicEntry.noSicMatch => false)

/-- Rule-4 bucket: rows whose `sic_permit` meets `sic_remove`. -/
def sic_removal_bucket (rows : List EnrichedFacility) : List EnrichedFacility :=
  rows.filter intersects_sic_remove

/-- Rule-5 bucket (`biosolids_not_sewer_not_potw_has_match_sic_check`):
rows whose `sic_permit` misses `sic_remove`. -/
def sic_check_bucket (rows : List EnrichedFacility) : List EnrichedFacility :=
  rows.filter (fun e => !(intersects_sic_remove e))

/-- Final output, original configuration: the notebook sets
`biosolids_to_remove = biosolids_not_sewer_not_potw_has_match`, the whole
has-match subset; `none` when the POTW mask raised. -/
def biosolids_to_remove_original (rows : List EnrichedFacility) :
    Option (List EnrichedFacility) :=
  (original_potw_filter (filter_not_sewer rows)).map filter_has_match

/-- Final output, revised configuration: again the whole has-match subset,
now downstream of the revised POTW rule. -/
def biosolids_to_remove_revised (rows : List EnrichedFacility) :
    List EnrichedFacility :=
  filter_has_match (revised_potw_filter (filter_not_sewer rows))

/-- Modelled from the spec: the hand-curated identifier → keep/remove
mapping of §4.4 rule 5 and §6. No such artifact exists in the repository
(the notebook records its manual review only as markdown prose), so the
mapping is an explicit association-list parameter; per the spec an absent
identifier defaults to `keep`. -/
def curated_decision (mapping : List (String × String)) (npdesId : String) :
    String :=
  match mapping.find? (fun p => p.fst == npdesId) with
  | some p => p.snd
  | none => "keep"

/-- The five `common_columns` of the reconciliation cell:
`['Facility Name', 'NPDES ID', 'City', 'State', 'Reporting Obligation(s)']`.
`drop_duplicates` treats two `NaN` cells as equal, matching equality on
`Option String`. -/
def keyTuple (e : EnrichedFacility) :
    String × String × String × String × Option String :=
  (e.fac.facilityName, e.fac.npdesId, e.fac.city, e.fac.state,
   e.fac.reportingObligations)

/-- Row equality as `drop_duplicates` sees it: agreement on the key columns. -/
def sameKey (e1 e2 : EnrichedFacility) : Bool :=
  decide (keyTuple e1 = keyTuple e2)

/-- `pd.concat([...]).drop_duplicates(keep%3DFalse)` keeps exactly the rows
whose key tuple occurs once in the frame. -/
def drop_duplicates_keep_false (rows : List EnrichedFacility) :
    List EnrichedFacility :=
  rows.filter (fun r => rows.countP (sameKey r) == 1)

/-- The rows the reconciliation cell's
`compare_removal_list_indices` points at: the symmetric difference, by key,
of the two runs inside their concatenation. -/
def compare_removal_list_rows (a b : List EnrichedFacility) :
    List EnrichedFacility :=
  drop_duplicates_keep_false (a ++ b)

/-- The `run_b` part of the symmetric-difference rows: the entries the
notebook then materialises through `remove_update.loc[...]` as the
additional facilities to remove. -/
def diffAdded (a b : List EnrichedFacility) : List EnrichedFacility :=
  b.filter (fun r => (a ++ b).countP (sameKey r) == 1)

/-- The `run_a` part of the symmetric-difference rows: the entries of the
first run absent from the second. -/
def diffRemoved (a b : List EnrichedFacility) : List EnrichedFacility :=
  a.filter (fun r => (a ++ b).countP (sameKey r) == 1)

/-- The kept rows of the concatenated frame are exactly the removed part
followed by the added part, in frame order. -/
theorem compare_removal_list_rows_eq (a b : List EnrichedFacility) :
    compare_removal_list_rows a b = diffRemoved a b ++ diffAdded a b :=
  List.filter_append a b

/-- One row of the NAICS registry `naics_npdes_biosolids`: its
`PGM_SYS_ID` and `CODE_DESCRIPTION` columns. -/
structure NaicsRow where
  pgm_sys_id : String
  code_description : String
deriving DecidableEq, Repr

/-- `check_naics_biosolid_codes`: mask the registry by
`PGM_SYS_ID.str.contains(npdes_id)`, then `['CODE_DESCRIPTION'].tolist()`. -/
def check_naics_biosolid_codes (registry : List NaicsRow) (npdes_id : String) :
    List String :=
  ((registry.filter (fun r => py_str_contains r.pgm_sys_id npdes_id)).map
    (fun r => r.code_description))

/-- Modelled from the spec: the Code Lookup Service registry and the
hard-coded sewer-related SIC subset live in `utilities.py`
(`check_all_sic_code`, `check_for_ww_permits`), which is not in the
repository; only its import and call sites are. The registry is therefore
an abstract parameter. -/
structure CodeRegistry where
  lookupCodes : String → List SicEntry
  sewerCodes : List Nat

/-- Modelled from the spec: `utilities.check_all_sic_code` returns the Code
Set on file for an identifier, or the `NO_SIC_MATCH` sentinel entry. -/
def check_all_sic_code (reg : CodeRegistry) (npdesId : String) :
    List SicEntry :=
  reg.lookupCodes npdesId

/-- Modelled from the spec: the Code Classifier of `utilities.py` maps a
Code Set to `sewer_system` when it meets the hard-coded sewer-related
subset, else `other_system`. -/
def classify_sic_codes (reg : CodeRegistry) (codes : List SicEntry) : String :=
  if codes.any (fun x =>
      match x with
      | SicEntry.code n => reg.sewerCodes.contains n
      | SicEntry.noSicMatch => false) then
    "sewer_system"
  else
    "other_system"

/-- Modelled from the spec: `utilities.check_for_ww_permits` classifies the
codes looked up for the identifier. -/
def check_for_ww_permits (reg : CodeRegistry) (npdesId : String) : String :=
  classify_sic_codes reg (check_all_sic_code reg npdesId)

/-- Enrichment of one record: attach `sic_permit` and
`check_sewer_permits`, as the two `progress_apply` cells do. -/
def enrich (reg : CodeRegistry) (f : Facility) : EnrichedFacility :=
  { fac := f,
    sic_permit := check_all_sic_code reg f.npdesId,
    check_sewer_permits := check_for_ww_permits reg f.npdesId }

/-- Enrichment of the whole roster. -/
def enrich_roster (reg : CodeRegistry) (roster : List Facility) :
    List EnrichedFacility :=
  roster.map (enrich reg)

/-- Concrete enriched record mirroring the spec's end-to-end scenario
`TX0118362`: POTW obligation text and the water-supply code 4941. -/
def ePotwDw : EnrichedFacility :=
  { fac := { npdesId := "TX0118362",
             facilityName := "SAMPLE POTW DW PLANT",
             city := "AUSTIN",
             state := "TX",
             reportingObligations := some "A POTW that serves 10,000 people or more" },
    sic_permit := [SicEntry.code 4941],
    check_sewer_permits := "other_system" }

/-- Concrete enriched record with POTW obligation text and no 4941 code. -/
def ePotwOnly : EnrichedFacility :=
  { fac := { npdesId := "TX0999001",
             facilityName := "SAMPLE POTW PLANT",
             city := "DALLAS",
             state := "TX",
             reportingObligations := some "A POTW that serves 10,000 people or more" },
    sic_permit := [SicEntry.code 7299],
    check_sewer_permits := "other_system" }

/-- Concrete enriched record reaching rule 5: verdict `other_system`, no
POTW text, a real SIC match (8641) outside `sic_remove`. -/
def eRule5 : EnrichedFacility :=
  { fac := { npdesId := "XX0000001",
             facilityName := "SAMPLE DINING CLUB PLANT",
             city := "SOMEWHERE",
             state := "XX",
             reportingObligations := some "General permit reporting" },
    sic_permit := [SicEntry.code 8641],
    check_sewer_permits := "other_system" }

/-- Concrete enriched record with a missing `Reporting Obligation(s)` cell. -/
def eMissingText : EnrichedFacility :=
  { fac := { npdesId := "XX0000002",
             facilityName := "SAMPLE SITE",
             city := "SOMEWHERE",
             state := "XX",
             reportingObligations := none },
    sic_permit := [SicEntry.code 7011],
    check_sewer_permits := "other_system" }

/-- Concrete enriched record with the `sewer_system` verdict. -/
def eSewer : EnrichedFacility :=
  { fac := { npdesId := "CA0000003",
             facilityName := "SAMPLE SEWER PLANT",
             city := "FRESNO",
             state := "CA",
             reportingObligations := some "A POTW" },
    sic_permit := [SicEntry.code 4952],
    check_sewer_permits := "sewer_system" }

/-- Concrete enriched record whose lookup found nothing. -/
def eNoMatch : EnrichedFacility :=
  { fac := { npdesId := "CA0000004",
             facilityName := "SAMPLE UNMATCHED SITE",
             city := "EUREKA",
             state := "CA",
             reportingObligations := some "General permit reporting" },
    sic_permit := [SicEntry.noSicMatch],
    check_sewer_permits := "other_system" }

/-- Membership in the rule-1 output frame. -/
theorem mem_filter_not_sewer {rows : List EnrichedFacility}
    {e : EnrichedFacility} :
    e ∈ filter_not_sewer rows ↔
      e ∈ rows ∧ e.check_sewer_permits = "other_system" := by
  simp [filter_not_sewer, List.mem_filter]

/-- When the original POTW mask does not raise, its output frame is the
plain filter by `does not contain POTW`. -/
theorem original_potw_filter_some {rows out : List EnrichedFacility}
    (h : original_potw_filter rows = some out) :
    out = rows.filter (fun e => potw_check e == some false) := by
  unfold original_potw_filter at h
  split at h
  · exact (Option.some.inj h).symm
  · exact absurd h (by simp)

/-- A row with a missing obligation cell in the frame makes the original
POTW mask raise. -/
theorem original_potw_filter_none {rows : List EnrichedFacility}
    {e : EnrichedFacility} (he : e ∈ rows) (h : potw_check e = none) :
    original_potw_filter rows = none := by
  unfold original_potw_filter
  rw [if_neg]
  intro hall
  rw [List.all_eq_true] at hall
  have := hall e he
  rw [h] at this
  exact absurd this (by simp)

/-- Membership in the revised configuration's final output. -/
theorem mem_revised_remove {rows : List EnrichedFacility}
    {e : EnrichedFacility} :
    e ∈ biosolids_to_remove_revised rows ↔
      e ∈ rows ∧ e.check_sewer_permits = "other_system"
        ∧ potw_not_dw_mask e = true ∧ has_sic_match e = true := by
  simp only [biosolids_to_remove_revised, filter_has_match, revised_potw_filter,
        filter_not_sewer, List.mem_filter, and_assoc, beq_iff_eq]

/-- Membership in the original configuration's final output, when it is
produced at all. -/
theorem mem_original_remove {rows out : List EnrichedFacility}
    {e : EnrichedFacility} (h : biosolids_to_remove_original rows = some out) :
    e ∈ out ↔
      e ∈ rows ∧ e.check_sewer_permits = "other_system"
        ∧ potw_check e = some false ∧ has_sic_match e = true := by
  unfold biosolids_to_remove_original at h
  cases hm : original_potw_filter (filter_not_sewer rows) with
  | none => rw [hm] at h; exact absurd h (by simp)
  | some m =>
      rw [hm] at h
      have hout : out = filter_has_match m := by
        simpa using h.symm
      subst hout
      rw [original_potw_filter_some hm]
      simp only [filter_has_match, filter_not_sewer, List.mem_filter,
        and_assoc, beq_iff_eq]

/-- C1: under the revised configuration, a record with POTW obligation text
and code 4941 is not retained by rule 2 (it stays in the frame that
proceeds to rules 3-5); with POTW text and no 4941 it is retained
(dropped from that frame); under the original configuration every record
with POTW text is retained by rule 2, regardless of 4941. -/
theorem potw_override_correctness (rows : List EnrichedFacility)
    (e : EnrichedFacility) (he : e ∈ rows)
    (hp : potw_check e = some true) :
    (dw_sic_check e = true → e ∈ revised_potw_filter rows)
    ∧ (dw_sic_check e = false → e ∉ revised_potw_filter rows)
    ∧ (∀ out, original_potw_filter rows = some out → e ∉ out) := by
  refine ⟨?_, ?_, ?_⟩
  · intro hdw
    simp [revised_potw_filter, List.mem_filter, potw_not_dw_mask, hp, hdw, he]
  · intro hdw
    simp [revised_potw_filter, List.mem_filter, potw_not_dw_mask, hp, hdw]
  · intro out hout
    rw [original_potw_filter_some hout]
    simp [List.mem_filter, hp]

/-- Witness for `potw_override_correctness` at the two sample records with
POTW text, with and without code 4941, in a two-row frame. -/
theorem potw_override_correctness_witness :
    (ePotwDw ∈ [ePotwDw, ePotwOnly] ∧ potw_check ePotwDw = some true
      ∧ ((dw_sic_check ePotwDw = true →
            ePotwDw ∈ revised_potw_filter [ePotwDw, ePotwOnly])
        ∧ (dw_sic_check ePotwDw = false →
            ePotwDw ∉ revised_potw_filter [ePotwDw, ePotwOnly])
        ∧ (∀ out, original_potw_filter [ePotwDw, ePotwOnly] = some out →
            ePotwDw ∉ out)))
    ∧ (ePotwOnly ∈ [ePotwDw, ePotwOnly] ∧ potw_check ePotwOnly = some true
      ∧ ((dw_sic_check ePotwOnly = true →
            ePotwOnly ∈ revised_potw_filter [ePotwDw, ePotwOnly])
        ∧ (dw_sic_check ePotwOnly = false →
            ePotwOnly ∉ revised_potw_filter [ePotwDw, ePotwOnly])
        ∧ (∀ out, original_potw_filter [ePotwDw, ePotwOnly] = some out →
            ePotwOnly ∉ out))) :=
  ⟨⟨by decide, rfl,
    potw_override_correctness [ePotwDw, ePotwOnly] ePotwDw (by decide) rfl⟩,
   ⟨by decide, rfl,
    potw_override_correctness [ePotwDw, ePotwOnly] ePotwOnly (by decide) rfl⟩⟩

/-- C4: a record whose verdict is `sewer_system` is never a member of the
final removal-candidate set, in either configuration, whatever its codes. -/
theorem sewer_system_never_removed (rows : List EnrichedFacility)
    (e : EnrichedFacility) (h : e.check_sewer_permits = "sewer_system") :
    (∀ out, biosolids_to_remove_original rows = some out → e ∉ out)
    ∧ e ∉ biosolids_to_remove_revised rows := by
  constructor
  · intro out hout hmem
    have hc := ((mem_original_remove hout).mp hmem).2.1
    rw [h] at hc
    exact absurd hc (by decide)
  · intro hmem
    have hc := (mem_revised_remove.mp hmem).2.1
    rw [h] at hc
    exact absurd hc (by decide)

/-- Witness for `sewer_system_never_removed` at the sample sewer record. -/
theorem sewer_system_never_removed_witness :
    eSewer.check_sewer_permits = "sewer_system"
    ∧ ((∀ out, biosolids_to_remove_original [eSewer, eRule5] = some out →
          eSewer ∉ out)
       ∧ eSewer ∉ biosolids_to_remove_revised [eSewer, eRule5]) :=
  ⟨rfl, sewer_system_never_removed [eSewer, eRule5] eSewer rfl⟩

/-- C5: a record whose `sic_permit` holds the `NO_SIC_MATCH` sentinel is
never a member of the final removal-candidate set, in either
configuration, independent of every other field. -/
theorem no_sic_match_never_removed (rows : List EnrichedFacility)
    (e : EnrichedFacility) (h : SicEntry.noSicMatch ∈ e.sic_permit) :
    (∀ out, biosolids_to_remove_original rows = some out → e ∉ out)
    ∧ e ∉ biosolids_to_remove_revised rows := by
  have hmatch : has_sic_match e = false := by
    simp [has_sic_match, h]
  constructor
  · intro out hout hmem
    have hc := ((mem_original_remove hout).mp hmem).2.2.2
    rw [hmatch] at hc
    exact absurd hc (by decide)
  · intro hmem
    have hc := (mem_revised_remove.mp hmem).2.2.2
    rw [hmatch] at hc
    exact absurd hc (by decide)

/-- Witness for `no_sic_match_never_removed` at the sample unmatched
record. -/
theorem no_sic_match_never_removed_witness :
    SicEntry.noSicMatch ∈ eNoMatch.sic_permit
    ∧ ((∀ out, biosolids_to_remove_original [eNoMatch, eRule5] = some out →
          eNoMatch ∉ out)
       ∧ eNoMatch ∉ biosolids_to_remove_revised [eNoMatch, eRule5]) :=
  ⟨by decide,
   no_sic_match_never_removed [eNoMatch, eRule5] eNoMatch (by decide)⟩

/-- C10: a record failing rules 1-3 (verdict `other_system`, not retained
by the active POTW rule, no `NO_SIC_MATCH` sentinel) is a member of the
final removal-candidate set of the respective configuration, with no
condition on how its codes meet `sic_remove`: the rule-4 / rule-5 split
never changes a facility's final disposition. -/
theorem rules_123_decide_removal (rows : List EnrichedFacility)
    (e : EnrichedFacility) (he : e ∈ rows)
    (h1 : e.check_sewer_permits = "other_system")
    (h3 : SicEntry.noSicMatch ∉ e.sic_permit) :
    (potw_not_dw_mask e = true → e ∈ biosolids_to_remove_revised rows)
    ∧ (∀ out, biosolids_to_remove_original rows = some out →
        potw_check e = some false → e ∈ out) := by
  have hmatch : has_sic_match e = true := by
    simp [has_sic_match]
    exact h3
  constructor
  · intro hm
    exact mem_revised_remove.mpr ⟨he, h1, hm, hmatch⟩
  · intro out hout hp
    exact (mem_original_remove hout).mpr ⟨he, h1, hp, hmatch⟩

/-- Witness for `rules_123_decide_removal` at the rule-4 sample record
(code 4941 lies in `sic_remove`) and at the rule-5 sample record (code
8641 lies outside it): both end in the removal sets. -/
theorem rules_123_decide_removal_witness :
    (ePotwDw ∈ [ePotwDw, eRule5]
      ∧ ePotwDw.check_sewer_permits = "other_system"
      ∧ SicEntry.noSicMatch ∉ ePotwDw.sic_permit
      ∧ intersects_sic_remove ePotwDw = true
      ∧ ((potw_not_dw_mask ePotwDw = true →
            ePotwDw ∈ biosolids_to_remove_revised [ePotwDw, eRule5])
        ∧ (∀ out, biosolids_to_remove_original [ePotwDw, eRule5] = some out →
            potw_check ePotwDw = some false → ePotwDw ∈ out)))
    ∧ (eRule5 ∈ [ePotwDw, eRule5]
      ∧ eRule5.check_sewer_permits = "other_system"
      ∧ SicEntry.noSicMatch ∉ eRule5.sic_permit
      ∧ intersects_sic_remove eRule5 = false
      ∧ ((potw_not_dw_mask eRule5 = true →
            eRule5 ∈ biosolids_to_remove_revised [ePotwDw, eRule5])
        ∧ (∀ out, biosolids_to_remove_original [ePotwDw, eRule5] = some out →
            potw_check eRule5 = some false → eRule5 ∈ out))) :=
  ⟨⟨by decide, rfl, by decide, by decide,
    rules_123_decide_removal [ePotwDw, eRule5] ePotwDw (by decide) rfl
      (by decide)⟩,
   ⟨by decide, rfl, by decide, by decide,
    rules_123_decide_removal [ePotwDw, eRule5] eRule5 (by decide) rfl
      (by decide)⟩⟩

/-- C2 counterexample: `eRule5` reaches rule 5 (verdict `other_system`, no
POTW text, a real SIC match, codes disjoint from `sic_remove`) and its
identifier is absent from the curated mapping (here the empty mapping, so
the spec-modelled decision is `keep`), yet both configurations place it in
the final removal-candidate set: the notebook removes the entire
has-match subset, so absence from the mapping does not keep it. -/
theorem review_default_keep_counterexample :
    curated_decision [] eRule5.fac.npdesId = "keep"
    ∧ eRule5.check_sewer_permits = "other_system"
    ∧ potw_check eRule5 = some false
    ∧ SicEntry.noSicMatch ∉ eRule5.sic_permit
    ∧ intersects_sic_remove eRule5 = false
    ∧ eRule5 ∈ biosolids_to_remove_revised [eRule5]
    ∧ biosolids_to_remove_original [eRule5] = some [eRule5] :=
  ⟨rfl, rfl, rfl, by decide, rfl, by decide, rfl⟩

/-- C2 amended: every record reaching rule 5 (verdict `other_system`, past
the active POTW rule, a real SIC match, codes disjoint from `sic_remove`)
is a member of the final removal-candidate set — it lands in the rule-5
review bucket and is removed with it, with no recourse to any keep/remove
mapping. -/
theorem rule5_always_removed (rows : List EnrichedFacility)
    (e : EnrichedFacility) (he : e ∈ rows)
    (h1 : e.check_sewer_permits = "other_system")
    (h3 : SicEntry.noSicMatch ∉ e.sic_permit)
    (h5 : intersects_sic_remove e = false) :
    (potw_not_dw_mask e = true →
        e ∈ sic_check_bucket (biosolids_to_remove_revised rows)
        ∧ e ∈ biosolids_to_remove_revised rows)
    ∧ (∀ out, biosolids_to_remove_original rows = some out →
        potw_check e = some false →
        e ∈ sic_check_bucket out ∧ e ∈ out) := by
  have hmatch : has_sic_match e = true := by
    simp [has_sic_match]
    exact h3
  constructor
  · intro hm
    have hrem : e ∈ biosolids_to_remove_revised rows :=
      mem_revised_remove.mpr ⟨he, h1, hm, hmatch⟩
    exact ⟨List.mem_filter.mpr ⟨hrem, by simp [h5]⟩, hrem⟩
  · intro out hout hp
    have hrem : e ∈ out := (mem_original_remove hout).mpr ⟨he, h1, hp, hmatch⟩
    exact ⟨List.mem_filter.mpr ⟨hrem, by simp [h5]⟩, hrem⟩

/-- Witness for `rule5_always_removed` at the rule-5 sample record. -/
theorem rule5_always_removed_witness :
    eRule5 ∈ [eRule5]
    ∧ eRule5.check_sewer_permits = "other_system"
    ∧ SicEntry.noSicMatch ∉ eRule5.sic_permit
    ∧ intersects_sic_remove eRule5 = false
    ∧ ((potw_not_dw_mask eRule5 = true →
          eRule5 ∈ sic_check_bucket (biosolids_to_remove_revised [eRule5])
          ∧ eRule5 ∈ biosolids_to_remove_revised [eRule5])
      ∧ (∀ out, biosolids_to_remove_original [eRule5] = some out →
          potw_check eRule5 = some false →
          eRule5 ∈ sic_check_bucket out ∧ eRule5 ∈ out)) :=
  ⟨by decide, rfl, by decide, rfl,
   rule5_always_removed [eRule5] eRule5 (by decide) rfl (by decide) rfl⟩

/-- C9 counterexample: the sample record with a missing
`Reporting Obligation(s)` cell makes the original configuration's POTW
mask raise, so the original pipeline fails (`none`) instead of proceeding
as if the text did not contain `POTW`. -/
theorem missing_obligation_counterexample :
    eMissingText.fac.reportingObligations = none
    ∧ biosolids_to_remove_original [eMissingText] = none
    ∧ eMissingText ∈ biosolids_to_remove_revised [eMissingText] :=
  ⟨rfl, rfl, by decide⟩

/-- C9 amended: a record with missing or malformed obligation text is
treated as `does not contain POTW` by the revised configuration only — its
revised rule-2 mask lets it proceed — while the original configuration's
POTW mask fails on any frame containing such a record. -/
theorem missing_obligation_amended (e : EnrichedFacility)
    (h : potw_check e = none) :
    potw_not_dw_mask e = true
    ∧ (∀ rows, e ∈ rows → original_potw_filter rows = none) := by
  constructor
  · simp [potw_not_dw_mask, h]
  · intro rows he
    exact original_potw_filter_none he h

/-- Witness for `missing_obligation_amended` at the sample record with a
missing cell. -/
theorem missing_obligation_amended_witness :
    potw_check eMissingText = none
    ∧ (potw_not_dw_mask eMissingText = true
      ∧ (∀ rows, eMissingText ∈ rows → original_potw_filter rows = none)) :=
  ⟨rfl, missing_obligation_amended eMissingText rfl⟩

/-- The spec-modelled classifier answers `sewer_system` exactly when some
code of the Code Set lies in the sewer-related subset; the sentinel entry
never matches. -/
theorem classify_eq_sewer_iff (reg : CodeRegistry) (codes : List SicEntry) :
    classify_sic_codes reg codes = "sewer_system" ↔
      ∃ n, SicEntry.code n ∈ codes ∧ n ∈ reg.sewerCodes := by
  have hiff : (codes.any (fun x =>
      match x with
      | SicEntry.code n => reg.sewerCodes.contains n
      | SicEntry.noSicMatch => false)) = true ↔
      ∃ n, SicEntry.code n ∈ codes ∧ n ∈ reg.sewerCodes := by
    rw [List.any_eq_true]
    constructor
    · rintro ⟨x, hx, hpx⟩
      cases x with
      | code n => exact ⟨n, hx, by simpa using hpx⟩
      | noSicMatch => simp at hpx
    · rintro ⟨n, hn, hmem⟩
      exact ⟨SicEntry.code n, hn, by simpa using hmem⟩
  unfold classify_sic_codes
  split
  next h => exact ⟨fun _ => hiff.mp h, fun _ => rfl⟩
  next h =>
    constructor
    · intro habs
      exact absurd habs (by decide)
    · intro hex
      exact absurd (hiff.mpr hex) h

/-- C3: for every record of the enriched roster the attached verdict is
the classifier applied to the attached Code Set — `sewer_system` exactly
when the Code Set meets the sewer-related subset, `other_system`
otherwise — so the verdict is a pure function of the attached Code Set. -/
theorem verdict_matches_codes (reg : CodeRegistry) (roster : List Facility)
    (e : EnrichedFacility) (he : e ∈ enrich_roster reg roster) :
    e.check_sewer_permits = classify_sic_codes reg e.sic_permit
    ∧ (e.check_sewer_permits = "sewer_system" ↔
        ∃ n, SicEntry.code n ∈ e.sic_permit ∧ n ∈ reg.sewerCodes)
    ∧ (e.check_sewer_permits = "sewer_system"
        ∨ e.check_sewer_permits = "other_system") := by
  obtain ⟨f, _, rfl⟩ := List.mem_map.mp he
  refine ⟨rfl, ?_, ?_⟩
  · exact classify_eq_sewer_iff reg (check_all_sic_code reg f.npdesId)
  · show classify_sic_codes reg (check_all_sic_code reg f.npdesId) = _
      ∨ classify_sic_codes reg (check_all_sic_code reg f.npdesId) = _
    unfold classify_sic_codes
    split
    · exact Or.inl rfl
    · exact Or.inr rfl

/-- Sample registry for the enrichment witness: one sewer-related code. -/
def regSample : CodeRegistry :=
  { lookupCodes := fun _ => [SicEntry.code 4952],
    sewerCodes := [4952] }

/-- Sample raw facility for the enrichment witness. -/
def facSample : Facility :=
  { npdesId := "CA0000005",
    facilityName := "SAMPLE CITY WWTP",
    city := "MERCED",
    state := "CA",
    reportingObligations := some "A POTW" }

/-- Witness for `verdict_matches_codes` at a one-facility roster. -/
theorem verdict_matches_codes_witness :
    enrich regSample facSample ∈ enrich_roster regSample [facSample]
    ∧ ((enrich regSample facSample).check_sewer_permits
          = classify_sic_codes regSample (enrich regSample facSample).sic_permit
      ∧ ((enrich regSample facSample).check_sewer_permits = "sewer_system" ↔
          ∃ n, SicEntry.code n ∈ (enrich regSample facSample).sic_permit
            ∧ n ∈ regSample.sewerCodes)
      ∧ ((enrich regSample facSample).check_sewer_permits = "sewer_system"
        ∨ (enrich regSample facSample).check_sewer_permits = "other_system")) :=
  ⟨by simp [enrich_roster],
   verdict_matches_codes regSample [facSample] (enrich regSample facSample)
     (by simp [enrich_roster])⟩

/-- Reflexivity of row-key agreement. -/
theorem sameKey_refl (r : EnrichedFacility) : sameKey r r = true := by
  simp [sameKey]

/-- In a run whose key tuples are pairwise distinct, a member's key occurs
exactly once. -/
theorem countP_sameKey_eq_one {b : List EnrichedFacility}
    {r : EnrichedFacility} (hb : (b.map keyTuple).Nodup) (hr : r ∈ b) :
    b.countP (sameKey r) = 1 := by
  induction b with
  | nil => cases hr
  | cons x xs ih =>
      rw [List.map_cons, List.nodup_cons] at hb
      obtain ⟨hx, hxs⟩ := hb
      rcases List.mem_cons.mp hr with rfl | hr2
      · rw [List.countP_cons, if_pos (sameKey_refl r)]
        have h0 : xs.countP (sameKey r) = 0 := by
          rw [List.countP_eq_zero]
          intro s hs hss
          rw [sameKey, decide_eq_true_iff] at hss
          exact hx (hss ▸ List.mem_map_of_mem keyTuple hs)
        omega
      · have hxr : sameKey r x = false := by
          rw [sameKey, decide_eq_false_iff_not]
          intro hk
          have : keyTuple r ∈ xs.map keyTuple := List.mem_map_of_mem keyTuple hr2
          rw [hk] at this
          exact hx this
        rw [List.countP_cons, if_neg (by simp [hxr])]
        simpa using ih hxs hr2

/-- The count-equals-one test against the concatenated frame, restricted to
a member of one run with distinct keys, is exactly key-absence from the
other run. -/
theorem symdiff_test_eq {x : List EnrichedFacility} {r : EnrichedFacility}
    (hx : (x.map keyTuple).Nodup) (hr : r ∈ x)
    (other : List EnrichedFacility) :
    (other.countP (sameKey r) + x.countP (sameKey r) == 1)
      = !(other.any (sameKey r)) := by
  rw [countP_sameKey_eq_one hx hr]
  cases h : other.any (sameKey r) with
  | true =>
      rw [List.any_eq_true] at h
      obtain ⟨s, hs, hss⟩ := h
      have hpos : 0 < other.countP (sameKey r) :=
        List.countP_pos_iff.mpr ⟨s, hs, hss⟩
      have hfalse : (other.countP (sameKey r) + 1 == 1) = false := by
        rw [beq_eq_false_iff_ne]
        omega
      rw [hfalse]
      rfl
  | false =>
      have h0 : other.countP (sameKey r) = 0 := by
        rw [List.countP_eq_zero]
        rw [List.any_eq_false] at h
        exact h
      rw [h0]
      rfl

/-- C6: on two runs with pairwise-distinct key tuples, the reconciliation
decides membership purely by key: its added part is exactly the members of
`run_b` whose key occurs in no member of `run_a`, and its removed part is
exactly the members of `run_a` whose key occurs in no member of `run_b`. -/
theorem diff_membership_by_key (a b : List EnrichedFacility)
    (ha : (a.map keyTuple).Nodup) (hb : (b.map keyTuple).Nodup) :
    diffAdded a b = b.filter (fun r => !(a.any (sameKey r)))
    ∧ diffRemoved a b = a.filter (fun r => !(b.any (sameKey r))) := by
  constructor
  · unfold diffAdded
    apply List.filter_congr
    intro r hr
    rw [List.countP_append]
    exact symdiff_test_eq hb hr a
  · unfold diffRemoved
    apply List.filter_congr
    intro r hr
    rw [List.countP_append, Nat.add_comm]
    exact symdiff_test_eq ha hr b

/-- Witness for `diff_membership_by_key` at two concrete one-row runs with
different keys. -/
theorem diff_membership_by_key_witness :
    (([ePotwDw].map keyTuple).Nodup ∧ ([eRule5].map keyTuple).Nodup)
    ∧ (diffAdded [ePotwDw] [eRule5]
          = [eRule5].filter (fun r => !([ePotwDw].any (sameKey r)))
      ∧ diffRemoved [ePotwDw] [eRule5]
          = [ePotwDw].filter (fun r => !([eRule5].any (sameKey r)))) :=
  ⟨⟨by simp, by simp⟩,
   diff_membership_by_key [ePotwDw] [eRule5] (by simp) (by simp)⟩

/-- C7: the added part of the reconciliation of `(a, b)` is the removed
part of the reconciliation of `(b, a)`, and vice versa, for any two runs. -/
theorem diff_added_removed_symmetry (a b : List EnrichedFacility) :
    diffAdded a b = diffRemoved b a ∧ diffRemoved a b = diffAdded b a := by
  constructor
  · unfold diffAdded diffRemoved
    apply List.filter_congr
    intro r hr
    rw [List.countP_append, List.countP_append,
        Nat.add_comm (a.countP (sameKey r)) (b.countP (sameKey r))]
  · unfold diffAdded diffRemoved
    apply List.filter_congr
    intro r hr
    rw [List.countP_append, List.countP_append,
        Nat.add_comm (a.countP (sameKey r)) (b.countP (sameKey r))]

/-- C8: the NAICS lookup returns the concatenation, in registry order, of
the code entries of every registry row whose `PGM_SYS_ID` contains the
queried identifier, and it preserves duplicates: each code's multiplicity
in the answer is the number of matching rows carrying it. -/
theorem naics_lookup_concatenation (registry : List NaicsRow)
    (npdes_id : String) :
    check_naics_biosolid_codes registry npdes_id
      = registry.flatMap (fun r =>
          if py_str_contains r.pgm_sys_id npdes_id then [r.code_description]
          else [])
    ∧ ∀ c : String, (check_naics_biosolid_codes registry npdes_id).count c
        = registry.countP (fun r =>
            py_str_contains r.pgm_sys_id npdes_id
              && (r.code_description == c)) := by
  constructor
  · induction registry with
    | nil => rfl
    | cons x xs ih =>
        unfold check_naics_biosolid_codes at ih ⊢
        cases h : py_str_contains x.pgm_sys_id npdes_id with
        | true => simp [List.flatMap_cons, List.filter_cons, h, ih]
        | false => simp [List.flatMap_cons, List.filter_cons, h, ih]
  · intro c
    unfold check_naics_biosolid_codes
    rw [List.count_eq_countP, List.countP_map, List.countP_filter]
    apply List.countP_congr
    intro r _
    cases hc : py_str_contains r.pgm_sys_id npdes_id <;>
      cases hd : r.code_description == c <;> simp [hc, hd]
